import Mathlib

/-!
Shallow embedding of the tauri-plugin-subscriptions repository
(src/lib.rs, src/android.rs, src/ios.rs).

The repository is a cross-platform in-app-purchase plugin: a domain model
(`Product`, `PurchaseResult`, `SubscriptionStatus`), two platform adapters
(iOS, Android) whose billing calls are mocked, and a dispatcher that selects
the adapter by compile-time target.

External effects are made explicit:
  * the Android JNI environment steps (activity lookup, JVM attach, class and
    method lookup) are folded into a single `nativeOk` flag with an abstract
    error `envError` (the source has no `From` impl for the foreign error
    type, so the exact converted error is left abstract);
  * the process-wide `SUBSCRIPTIONS_INSTANCE : OnceCell<jobject>` is passed
    as explicit state `Option Nat`;
  * `rand::random::<u64>()` and `SystemTime::now()` are fields `rand`, `now`
    of the environment;
  * the state of the external platform store and user account
    (`storeIds`, `accountPurchases`, `userAction`) is carried in the
    environment; the source code never consults it — its mock bodies
    fabricate results unconditionally, which is exactly the behaviour the
    theorems below examine.
-/

namespace Subscriptions

/-- Error enum of src/lib.rs (the `String` payload is the message). -/
inductive Error where
  | ProductRetrievalError (msg : String)
  | PurchaseError (msg : String)
  | SubscriptionError (msg : String)
  | ValidationError (msg : String)
  | PlatformError (msg : String)
deriving DecidableEq, Repr

/-- `ProductType` enum of src/lib.rs. -/
inductive ProductType where
  | Consumable
  | NonConsumable
  | Subscription
deriving DecidableEq, Repr

/-- `SubscriptionPeriod` enum of src/lib.rs. -/
inductive SubscriptionPeriod where
  | Day
  | Week
  | Month
  | Year
deriving DecidableEq, Repr

/-- `Product` struct of src/lib.rs. `price_amount : f64` is modelled as an
exact rational. `subscription_period_unit : u32` as `Nat`. -/
structure Product where
  id : String
  title : String
  description : String
  price : String
  price_amount : Rat
  currency_code : String
  product_type : ProductType
  subscription_period : Option SubscriptionPeriod
  subscription_period_unit : Option Nat
deriving DecidableEq, Repr

/-- `PurchaseResult` struct of src/lib.rs (`u64` times as `Nat`). -/
structure PurchaseResult where
  product_id : String
  transaction_id : String
  purchase_time : Nat
  is_acknowledged : Bool
  subscription_expiry_time : Option Nat
  receipt_data : Option String
deriving DecidableEq, Repr

/-- `SubscriptionStatus` struct of src/lib.rs. -/
structure SubscriptionStatus where
  product_id : String
  is_active : Bool
  expiry_date : Option Nat
  auto_renew_status : Bool
  is_in_trial_period : Bool
  is_in_grace_period : Bool
deriving DecidableEq, Repr

/-- User response to a platform purchase flow — external world state.
The Android/iOS mock purchase bodies never consult it. -/
inductive UserAction where
  | completed
  | cancelled
  | declined
deriving DecidableEq, Repr

/-- External world as seen by the Android adapter.

`nativeOk`/`envError` model the fallible JNI steps (`plugin_init_hook`,
`get_activity`, `JavaVM::from_raw`, `attach_current_thread`, class/method
lookups) that every adapter function performs before its body; `handleValue`
is the `jobject` returned by `Subscriptions.getInstance`; `now` and `rand`
are the clock and RNG; `storeIds`, `accountPurchases` and `userAction` are
the platform store's known product ids, the account's purchased products and
the user's response to a purchase flow — none of which the mocked source
code ever reads. -/
structure AndroidEnv where
  nativeOk : Bool
  envError : Error
  handleValue : Nat
  now : Nat
  rand : Nat
  storeIds : List String
  accountPurchases : List String
  userAction : UserAction
deriving DecidableEq, Repr

/-- External world as seen by the iOS adapter. `classFound` models
`Class::get("Subscriptions")`; `completionFired` models whether the native
`getProducts` completion block has run by the time the function reads its
result cell (the source returns without waiting). -/
structure IosEnv where
  classFound : Bool
  completionFired : Bool
  now : Nat
  rand : Nat
  storeIds : List String
  accountPurchases : List String
  userAction : UserAction
deriving DecidableEq, Repr

/-- src/android.rs `init_android`: JNI steps, `Subscriptions.getInstance`,
then `SUBSCRIPTIONS_INSTANCE.set(instance)`; a failed `OnceCell::set`
(cell already filled) maps to `PlatformError("Failed to initialize
Subscriptions")` and leaves the cell untouched. State-passing rendering of
the global `OnceCell`. -/
def init_android (env : AndroidEnv) (cell : Option Nat) :
    Except Error Unit × Option Nat :=
  if env.nativeOk = false then (.error env.envError, cell)
  else
    match cell with
    | some h =>
        (.error (.PlatformError "Failed to initialize Subscriptions"), some h)
    | none => (.ok (), some env.handleValue)

/-- src/android.rs `get_products_android`: JNI steps, instance check,
builds a Java `ArrayList` of the ids (never sent anywhere), then fabricates
one mock `Product` per requested id and stores it into the local result
cell, which is read back immediately. -/
def get_products_android (env : AndroidEnv) (cell : Option Nat)
    (product_ids : List String) : Except Error (List Product) :=
  if env.nativeOk = false then .error env.envError
  else
    match cell with
    | none => .error (.PlatformError "Subscriptions not initialized")
    | some _ =>
        let mock_products : List Product := product_ids.map fun id =>
          { id := id
            title := "Product " ++ id
            description := "Description"
            price := "$9.99"
            price_amount := (999 : Rat) / 100
            currency_code := "USD"
            product_type := .Subscription
            subscription_period := some .Month
            subscription_period_unit := some 1 }
        let result : Option (List Product) := some mock_products
        match result with
        | some products => .ok products
        | none => .error (.ProductRetrievalError "Failed to retrieve products")

/-- src/android.rs `purchase_product_android`: JNI steps, instance check,
then unconditionally returns a mock successful purchase (no native call, no
callback, `env.userAction` never consulted). -/
def purchase_product_android (env : AndroidEnv) (cell : Option Nat)
    (product_id : String) : Except Error PurchaseResult :=
  if env.nativeOk = false then .error env.envError
  else
    match cell with
    | none => .error (.PlatformError "Subscriptions not initialized")
    | some _ =>
        .ok { product_id := product_id
              transaction_id := "android_transaction_" ++ toString env.rand
              purchase_time := env.now
              is_acknowledged := true
              subscription_expiry_time := some (env.now + 30 * 24 * 60 * 60)
              receipt_data := some "sample_receipt_data" }

/-- src/android.rs `restore_purchases_android`: JNI steps, instance check,
then unconditionally returns a fixed one-element mock purchase list
(`env.accountPurchases` never consulted; `u64` subtraction modelled by
truncated `Nat` subtraction). -/
def restore_purchases_android (env : AndroidEnv) (cell : Option Nat) :
    Except Error (List PurchaseResult) :=
  if env.nativeOk = false then .error env.envError
  else
    match cell with
    | none => .error (.PlatformError "Subscriptions not initialized")
    | some _ =>
        .ok [{ product_id := "com.example.subscription.monthly"
               transaction_id := "android_transaction_" ++ toString env.rand
               purchase_time := env.now - 15 * 24 * 60 * 60
               is_acknowledged := true
               subscription_expiry_time := some (env.now + 15 * 24 * 60 * 60)
               receipt_data := some "sample_receipt_data" }]

/-- src/android.rs `get_subscription_status_android`: JNI steps, instance
check, then unconditionally returns an active mock status
(`env.accountPurchases` never consulted). -/
def get_subscription_status_android (env : AndroidEnv) (cell : Option Nat)
    (product_id : String) : Except Error SubscriptionStatus :=
  if env.nativeOk = false then .error env.envError
  else
    match cell with
    | none => .error (.PlatformError "Subscriptions not initialized")
    | some _ =>
        .ok { product_id := product_id
              is_active := true
              expiry_date := some (env.now + 15 * 24 * 60 * 60)
              auto_renew_status := true
              is_in_trial_period := false
              is_in_grace_period := false }

/-- src/ios.rs `init_ios`: `Class::get("Subscriptions")` then
`msg_send![subscriptions_class, register]` (stateless). -/
def init_ios (env : IosEnv) : Except Error Unit :=
  if env.classFound = false
  then .error (.PlatformError "Subscriptions class not found")
  else .ok ()

/-- src/ios.rs `get_products_ios`: class lookup, registers a completion
block that fabricates one mock `Product` per requested id into the result
cell, then reads the cell without waiting; if the block has not fired the
cell is still `None` and the function fails. -/
def get_products_ios (env : IosEnv) (product_ids : List String) :
    Except Error (List Product) :=
  if env.classFound = false
  then .error (.PlatformError "Subscriptions class not found")
  else
    let result : Option (List Product) :=
      if env.completionFired then
        some (product_ids.map fun id =>
          { id := id
            title := "Product " ++ id
            description := "Description"
            price := "$9.99"
            price_amount := (999 : Rat) / 100
            currency_code := "USD"
            product_type := .Subscription
            subscription_period := some .Month
            subscription_period_unit := some 1 })
      else none
    match result with
    | some products => .ok products
    | none => .error (.ProductRetrievalError "Failed to retrieve products")

/-- src/ios.rs `purchase_product_ios`: unconditionally returns a mock
successful purchase (`env.userAction` never consulted). -/
def purchase_product_ios (env : IosEnv) (product_id : String) :
    Except Error PurchaseResult :=
  .ok { product_id := product_id
        transaction_id := "ios_transaction_" ++ toString env.rand
        purchase_time := env.now
        is_acknowledged := true
        subscription_expiry_time := some (env.now + 30 * 24 * 60 * 60)
        receipt_data := some "sample_receipt_data" }

/-- src/ios.rs `restore_purchases_ios`: unconditionally returns a fixed
one-element mock purchase list (`env.accountPurchases` never consulted). -/
def restore_purchases_ios (env : IosEnv) :
    Except Error (List PurchaseResult) :=
  .ok [{ product_id := "com.example.subscription.monthly"
         transaction_id := "ios_transaction_" ++ toString env.rand
         purchase_time := env.now - 15 * 24 * 60 * 60
         is_acknowledged := true
         subscription_expiry_time := some (env.now + 15 * 24 * 60 * 60)
         receipt_data := some "sample_receipt_data" }]

/-- src/ios.rs `get_subscription_status_ios`: unconditionally returns an
active mock status (`env.accountPurchases` never consulted). -/
def get_subscription_status_ios (env : IosEnv) (product_id : String) :
    Except Error SubscriptionStatus :=
  .ok { product_id := product_id
        is_active := true
        expiry_date := some (env.now + 15 * 24 * 60 * 60)
        auto_renew_status := true
        is_in_trial_period := false
        is_in_grace_period := false }

/-- Compile-time build target of src/lib.rs (`target_os` cfg):
iOS, Android, or neither. -/
inductive Platform where
  | ios
  | android
  | other
deriving DecidableEq, Repr

/-- A build/run configuration: the compile-time platform plus the external
worlds and the Android `OnceCell` state. -/
structure World where
  platform : Platform
  iosEnv : IosEnv
  androidEnv : AndroidEnv
  androidCell : Option Nat
deriving DecidableEq, Repr

/-- src/lib.rs `get_products` command: forwards to the active adapter;
on neither platform returns
`PlatformError("Subscriptions are only supported on iOS and Android")`. -/
def get_products (w : World) (product_ids : List String) :
    Except Error (List Product) :=
  match w.platform with
  | .ios => get_products_ios w.iosEnv product_ids
  | .android => get_products_android w.androidEnv w.androidCell product_ids
  | .other =>
      .error (.PlatformError "Subscriptions are only supported on iOS and Android")

/-- src/lib.rs `purchase_product` command. -/
def purchase_product (w : World) (product_id : String) :
    Except Error PurchaseResult :=
  match w.platform with
  | .ios => purchase_product_ios w.iosEnv product_id
  | .android => purchase_product_android w.androidEnv w.androidCell product_id
  | .other =>
      .error (.PlatformError "Purchases are only supported on iOS and Android")

/-- src/lib.rs `restore_purchases` command. -/
def restore_purchases (w : World) : Except Error (List PurchaseResult) :=
  match w.platform with
  | .ios => restore_purchases_ios w.iosEnv
  | .android => restore_purchases_android w.androidEnv w.androidCell
  | .other =>
      .error (.PlatformError "Restoring purchases is only supported on iOS and Android")

/-- src/lib.rs `get_subscription_status` command. -/
def get_subscription_status (w : World) (product_id : String) :
    Except Error SubscriptionStatus :=
  match w.platform with
  | .ios => get_subscription_status_ios w.iosEnv product_id
  | .android =>
      get_subscription_status_android w.androidEnv w.androidCell product_id
  | .other =>
      .error (.PlatformError "Subscription status checking is only supported on iOS and Android")

/-! ## Wire format

The three domain structs derive `Serialize`/`Deserialize`; the host shell's
command payload format is JSON. The embedding below follows serde's derived
behaviour: a struct serializes to an object with one field per struct field,
a unit-variant enum serializes to its variant name as a string, `Option` to
`null` or the inner value, integers and `f64` to numbers (numbers carried
exactly as rationals), and deserialization looks fields up by name. -/

/-- JSON values (numbers carried exactly). -/
inductive Json where
  | null
  | bool (b : Bool)
  | num (q : Rat)
  | str (s : String)
  | arr (elems : List Json)
  | obj (fields : List (String × Json))

/-- Field lookup by name in a serialized object. -/
def jLookup (fields : List (String × Json)) (key : String) : Option Json :=
  match fields with
  | [] => none
  | (k, v) :: rest => if k = key then some v else jLookup rest key

def strFromJson : Json → Option String
  | .str s => some s
  | _ => none

def boolFromJson : Json → Option Bool
  | .bool b => some b
  | _ => none

def ratFromJson : Json → Option Rat
  | .num q => some q
  | _ => none

/-- `u64`/`u32` serialize as JSON numbers. -/
def natToJson (n : Nat) : Json := .num (n : Rat)

def natFromJson : Json → Option Nat
  | .num q => if 0 ≤ q.num ∧ q.den = 1 then some q.num.toNat else none
  | _ => none

/-- serde: `Option` serializes as `null` or the bare inner value. -/
def optToJson (f : α → Json) : Option α → Json
  | none => .null
  | some x => f x

def optFromJson (f : Json → Option α) : Json → Option (Option α)
  | .null => some none
  | j => (f j).map some

/-- serde: unit-variant enums serialize as the variant-name string. -/
def productTypeToJson : ProductType → Json
  | .Consumable => .str "Consumable"
  | .NonConsumable => .str "NonConsumable"
  | .Subscription => .str "Subscription"

def productTypeFromJson : Json → Option ProductType
  | .str "Consumable" => some .Consumable
  | .str "NonConsumable" => some .NonConsumable
  | .str "Subscription" => some .Subscription
  | _ => none

def periodToJson : SubscriptionPeriod → Json
  | .Day => .str "Day"
  | .Week => .str "Week"
  | .Month => .str "Month"
  | .Year => .str "Year"

def periodFromJson : Json → Option SubscriptionPeriod
  | .str "Day" => some .Day
  | .str "Week" => some .Week
  | .str "Month" => some .Month
  | .str "Year" => some .Year
  | _ => none

/-- Derived `Serialize` for `Product`. -/
def productToJson (p : Product) : Json :=
  .obj [("id", .str p.id),
        ("title", .str p.title),
        ("description", .str p.description),
        ("price", .str p.price),
        ("price_amount", .num p.price_amount),
        ("currency_code", .str p.currency_code),
        ("product_type", productTypeToJson p.product_type),
        ("subscription_period", optToJson periodToJson p.subscription_period),
        ("subscription_period_unit", optToJson natToJson p.subscription_period_unit)]

/-- Derived `Deserialize` for `Product` (field lookup by name). -/
def productFromJson : Json → Option Product
  | .obj fields => do
      let id ← jLookup fields "id" >>= strFromJson
      let title ← jLookup fields "title" >>= strFromJson
      let description ← jLookup fields "description" >>= strFromJson
      let price ← jLookup fields "price" >>= strFromJson
      let price_amount ← jLookup fields "price_amount" >>= ratFromJson
      let currency_code ← jLookup fields "currency_code" >>= strFromJson
      let product_type ← jLookup fields "product_type" >>= productTypeFromJson
      let subscription_period ←
        jLookup fields "subscription_period" >>= optFromJson periodFromJson
      let subscription_period_unit ←
        jLookup fields "subscription_period_unit" >>= optFromJson natFromJson
      some { id := id, title := title, description := description,
             price := price, price_amount := price_amount,
             currency_code := currency_code, product_type := product_type,
             subscription_period := subscription_period,
             subscription_period_unit := subscription_period_unit }
  | _ => none

/-- Derived `Serialize` for `PurchaseResult`. -/
def purchaseResultToJson (r : PurchaseResult) : Json :=
  .obj [("product_id", .str r.product_id),
        ("transaction_id", .str r.transaction_id),
        ("purchase_time", natToJson r.purchase_time),
        ("is_acknowledged", .bool r.is_acknowledged),
        ("subscription_expiry_time", optToJson natToJson r.subscription_expiry_time),
        ("receipt_data", optToJson Json.str r.receipt_data)]

/-- Derived `Deserialize` for `PurchaseResult`. -/
def purchaseResultFromJson : Json → Option PurchaseResult
  | .obj fields => do
      let product_id ← jLookup fields "product_id" >>= strFromJson
      let transaction_id ← jLookup fields "transaction_id" >>= strFromJson
      let purchase_time ← jLookup fields "purchase_time" >>= natFromJson
      let is_acknowledged ← jLookup fields "is_acknowledged" >>= boolFromJson
      let subscription_expiry_time ←
        jLookup fields "subscription_expiry_time" >>= optFromJson natFromJson
      let receipt_data ←
        jLookup fields "receipt_data" >>= optFromJson strFromJson
      some { product_id := product_id, transaction_id := transaction_id,
             purchase_time := purchase_time,
             is_acknowledged := is_acknowledged,
             subscription_expiry_time := subscription_expiry_time,
             receipt_data := receipt_data }
  | _ => none

/-- Derived `Serialize` for `SubscriptionStatus`. -/
def subscriptionStatusToJson (s : SubscriptionStatus) : Json :=
  .obj [("product_id", .str s.product_id),
        ("is_active", .bool s.is_active),
        ("expiry_date", optToJson natToJson s.expiry_date),
        ("auto_renew_status", .bool s.auto_renew_status),
        ("is_in_trial_period", .bool s.is_in_trial_period),
        ("is_in_grace_period", .bool s.is_in_grace_period)]

/-- Derived `Deserialize` for `SubscriptionStatus`. -/
def subscriptionStatusFromJson : Json → Option SubscriptionStatus
  | .obj fields => do
      let product_id ← jLookup fields "product_id" >>= strFromJson
      let is_active ← jLookup fields "is_active" >>= boolFromJson
      let expiry_date ← jLookup fields "expiry_date" >>= optFromJson natFromJson
      let auto_renew_status ←
        jLookup fields "auto_renew_status" >>= boolFromJson
      let is_in_trial_period ←
        jLookup fields "is_in_trial_period" >>= boolFromJson
      let is_in_grace_period ←
        jLookup fields "is_in_grace_period" >>= boolFromJson
      some { product_id := product_id, is_active := is_active,
             expiry_date := expiry_date,
             auto_renew_status := auto_renew_status,
             is_in_trial_period := is_in_trial_period,
             is_in_grace_period := is_in_grace_period }
  | _ => none

/-! ## Round-trip helper lemmas -/

theorem natFromJson_natToJson (n : Nat) : natFromJson (natToJson n) = some n := by
  simp [natToJson, natFromJson]

theorem optNat_roundtrip (o : Option Nat) :
    optFromJson natFromJson (optToJson natToJson o) = some o := by
  cases o with
  | none => rfl
  | some n => simp [optToJson, optFromJson, natToJson, natFromJson]

theorem optPeriod_roundtrip (o : Option SubscriptionPeriod) :
    optFromJson periodFromJson (optToJson periodToJson o) = some o := by
  cases o with
  | none => rfl
  | some x => cases x <;> rfl

theorem optStr_roundtrip (o : Option String) :
    optFromJson strFromJson (optToJson Json.str o) = some o := by
  cases o <;> rfl

theorem product_roundtrip (p : Product) :
    productFromJson (productToJson p) = some p := by
  obtain ⟨i, t, d, pr, pa, cc, pt, sp, spu⟩ := p
  cases pt <;>
    simp [productToJson, productFromJson, jLookup, strFromJson, ratFromJson,
          productTypeToJson, productTypeFromJson, optPeriod_roundtrip,
          optNat_roundtrip]

theorem purchaseResult_roundtrip (r : PurchaseResult) :
    purchaseResultFromJson (purchaseResultToJson r) = some r := by
  obtain ⟨pid, tid, pt, ack, exp, rcpt⟩ := r
  simp [purchaseResultToJson, purchaseResultFromJson, jLookup, strFromJson,
        boolFromJson, natFromJson_natToJson, optNat_roundtrip, optStr_roundtrip]

theorem subscriptionStatus_roundtrip (s : SubscriptionStatus) :
    subscriptionStatusFromJson (subscriptionStatusToJson s) = some s := by
  obtain ⟨pid, act, exp, ar, tr, gr⟩ := s
  simp [subscriptionStatusToJson, subscriptionStatusFromJson, jLookup,
        strFromJson, boolFromJson, optNat_roundtrip]

/-! ## Claims -/

/-- C1: the spec's contract says `get_products` returns only ids the platform
store actually resolved and never fabricates a `Product` for an unknown id.
The Android adapter violates this: with the store knowing only
`"sub.monthly"`, requesting the unknown id `"unknown.id"` still yields a
fabricated `Product` for it. -/
theorem get_products_fabricates_unknown_ids :
    "unknown.id" ∉
      (⟨true, .PlatformError "jni", 7, 1000, 42, ["sub.monthly"], [],
        .completed⟩ : AndroidEnv).storeIds ∧
    ∃ p : Product,
      get_products_android
        (⟨true, .PlatformError "jni", 7, 1000, 42, ["sub.monthly"], [],
          .completed⟩ : AndroidEnv)
        (some 7) ["unknown.id"] = .ok [p] ∧ p.id = "unknown.id" := by
  refine ⟨by decide, ?_⟩
  exact ⟨_, rfl, rfl⟩

/-- C2 counterexample: on a build targeting neither platform the dispatcher
does fail, but its `PlatformError` message is the operation-specific
"Subscriptions are only supported on iOS and Android", not the claimed
"unsupported platform". -/
theorem dispatcher_message_not_unsupported_platform :
    get_products
      (⟨.other,
        ⟨true, true, 1000, 42, [], [], .completed⟩,
        ⟨true, .PlatformError "jni", 7, 1000, 42, [], [], .completed⟩,
        none⟩ : World) ["p1"] =
      .error (.PlatformError "Subscriptions are only supported on iOS and Android") ∧
    Error.PlatformError "Subscriptions are only supported on iOS and Android" ≠
      Error.PlatformError "unsupported platform" :=
  ⟨rfl, by decide⟩

/-- C2 (amended): on a build targeting neither iOS nor Android, every one of
the four dispatcher operations, for every input, returns a `PlatformError`
whose message is the operation-specific
"... only supported on iOS and Android" string — never success and never a
silent no-op. -/
theorem dispatcher_unsupported_build_platform_error (i : IosEnv)
    (a : AndroidEnv) (cell : Option Nat) (ids : List String)
    (pid qid : String) :
    get_products ⟨.other, i, a, cell⟩ ids =
      .error (.PlatformError "Subscriptions are only supported on iOS and Android") ∧
    purchase_product ⟨.other, i, a, cell⟩ pid =
      .error (.PlatformError "Purchases are only supported on iOS and Android") ∧
    restore_purchases ⟨.other, i, a, cell⟩ =
      .error (.PlatformError "Restoring purchases is only supported on iOS and Android") ∧
    get_subscription_status ⟨.other, i, a, cell⟩ qid =
      .error (.PlatformError "Subscription status checking is only supported on iOS and Android") :=
  ⟨rfl, rfl, rfl, rfl⟩

/-- C3: the Android adapter's init is set-once. If the `OnceCell` already
holds a handle `h` (as after a successful first invocation), a second
invocation leaves the stored handle exactly `some h` and never returns
success — in every environment it fails (either the abstract JNI error or
`PlatformError("Failed to initialize Subscriptions")` from the refused
`OnceCell::set`), so the first handle is never overwritten. -/
theorem init_android_set_once (env : AndroidEnv) (h : Nat) :
    (init_android env (some h)).2 = some h ∧
    ∀ u : Unit, (init_android env (some h)).1 ≠ Except.ok u := by
  cases hn : env.nativeOk <;> simp [init_android, hn]

/-- C4: the claim says `restore_purchases` for an account with no restorable
purchases returns the empty list. The Android adapter never consults the
account: with `accountPurchases = []` it still returns its fixed one-element
mock purchase list, which is not empty. -/
theorem restore_purchases_fixed_mock_nonempty :
    (⟨true, .PlatformError "jni", 7, 1000, 42, [], [],
      .completed⟩ : AndroidEnv).accountPurchases = [] ∧
    ∃ r : PurchaseResult,
      restore_purchases_android
        (⟨true, .PlatformError "jni", 7, 1000, 42, [], [],
          .completed⟩ : AndroidEnv) (some 7) = .ok [r] ∧
      ([r] : List PurchaseResult) ≠ [] :=
  ⟨rfl, _, rfl, by simp⟩

/-- C5: the claim says `get_subscription_status` for a never-purchased
product returns `is_active = false` and `expiry_date = none`. The Android
adapter never consults the account: for a product absent from
`accountPurchases` it still returns `is_active = true` with a populated
`expiry_date`. -/
theorem subscription_status_active_for_never_purchased :
    "never.bought" ∉
      (⟨true, .PlatformError "jni", 7, 1000, 42, [], [],
        .completed⟩ : AndroidEnv).accountPurchases ∧
    get_subscription_status_android
      (⟨true, .PlatformError "jni", 7, 1000, 42, [], [],
        .completed⟩ : AndroidEnv) (some 7) "never.bought" =
      .ok { product_id := "never.bought", is_active := true,
            expiry_date := some (1000 + 15 * 24 * 60 * 60),
            auto_renew_status := true, is_in_trial_period := false,
            is_in_grace_period := false } :=
  ⟨by simp, rfl⟩

/-- C6: the claim says a cancelled purchase flow yields a `PurchaseError`
and never a `PurchaseResult`. The Android adapter consults no purchase
callback at all: even with `userAction = cancelled` it returns a mock
successful `PurchaseResult`. -/
theorem purchase_product_ignores_cancellation :
    (⟨true, .PlatformError "jni", 7, 1000, 42, [], [],
      .cancelled⟩ : AndroidEnv).userAction = UserAction.cancelled ∧
    ∃ r : PurchaseResult,
      purchase_product_android
        (⟨true, .PlatformError "jni", 7, 1000, 42, [], [],
          .cancelled⟩ : AndroidEnv) (some 7) "com.example.sub" = .ok r ∧
      r.product_id = "com.example.sub" :=
  ⟨rfl, _, rfl, rfl⟩

/-- C7: on a build with a matching adapter each dispatcher command returns
exactly the value (success or error, message included) of the active
adapter's corresponding function at the same arguments — all four commands,
on both the iOS and Android targets, for all inputs. -/
theorem dispatcher_forwards_verbatim (i : IosEnv) (a : AndroidEnv)
    (cell : Option Nat) (ids : List String) (pid qid : String) :
    (get_products ⟨.ios, i, a, cell⟩ ids = get_products_ios i ids) ∧
    (get_products ⟨.android, i, a, cell⟩ ids
      = get_products_android a cell ids) ∧
    (purchase_product ⟨.ios, i, a, cell⟩ pid = purchase_product_ios i pid) ∧
    (purchase_product ⟨.android, i, a, cell⟩ pid
      = purchase_product_android a cell pid) ∧
    (restore_purchases ⟨.ios, i, a, cell⟩ = restore_purchases_ios i) ∧
    (restore_purchases ⟨.android, i, a, cell⟩
      = restore_purchases_android a cell) ∧
    (get_subscription_status ⟨.ios, i, a, cell⟩ qid
      = get_subscription_status_ios i qid) ∧
    (get_subscription_status ⟨.android, i, a, cell⟩ qid
      = get_subscription_status_android a cell qid) :=
  ⟨rfl, rfl, rfl, rfl, rfl, rfl, rfl, rfl⟩

/-- C8: serializing any `Product`, `PurchaseResult` or `SubscriptionStatus`
to the wire format and deserializing the result yields the original value. -/
theorem wire_roundtrip :
    (∀ p : Product, productFromJson (productToJson p) = some p) ∧
    (∀ r : PurchaseResult,
      purchaseResultFromJson (purchaseResultToJson r) = some r) ∧
    (∀ s : SubscriptionStatus,
      subscriptionStatusFromJson (subscriptionStatusToJson s) = some s) :=
  ⟨product_roundtrip, purchaseResult_roundtrip, subscriptionStatus_roundtrip⟩

/-- C9: the claim says `get_products(["sub.monthly"])`, when the store knows
the id, returns exactly one `Product` of type `Subscription` with a
populated `subscription_period`. On the iOS adapter this fails in the
realistic execution: the native `getProducts` completion block answers
asynchronously, so it has not fired when the function reads its result cell,
and even with `"sub.monthly"` in the store the call returns
`ProductRetrievalError("Failed to retrieve products")` instead of any
product list. (The Android adapter, once initialized, does satisfy the
scenario, since it fabricates a Subscription product per requested id.) -/
theorem get_products_ios_fails_before_completion :
    "sub.monthly" ∈
      (⟨true, false, 1000, 42, ["sub.monthly"], [],
        .completed⟩ : IosEnv).storeIds ∧
    get_products_ios
      (⟨true, false, 1000, 42, ["sub.monthly"], [],
        .completed⟩ : IosEnv) ["sub.monthly"] =
      .error (.ProductRetrievalError "Failed to retrieve products") :=
  ⟨by decide, rfl⟩

/-- C10: on Android, while the `SUBSCRIPTIONS_INSTANCE` cell is unset (and
with the JNI environment steps that precede the check succeeding), each of
the four adapter operations, for every input, returns
`PlatformError("Subscriptions not initialized")`. -/
theorem android_uninitialized_platform_error (env : AndroidEnv)
    (hn : env.nativeOk = true) (ids : List String) (pid qid : String) :
    get_products_android env none ids =
      .error (.PlatformError "Subscriptions not initialized") ∧
    purchase_product_android env none pid =
      .error (.PlatformError "Subscriptions not initialized") ∧
    restore_purchases_android env none =
      .error (.PlatformError "Subscriptions not initialized") ∧
    get_subscription_status_android env none qid =
      .error (.PlatformError "Subscriptions not initialized") := by
  simp [get_products_android, purchase_product_android,
        restore_purchases_android, get_subscription_status_android, hn]

/-- C10 witness: the uninitialized-state error at a concrete environment and
concrete inputs. -/
theorem android_uninitialized_platform_error_witness :
    get_products_android
      (⟨true, .PlatformError "jni", 7, 1000, 42, [], [],
        .completed⟩ : AndroidEnv) none ["p1"] =
      .error (.PlatformError "Subscriptions not initialized") ∧
    purchase_product_android
      (⟨true, .PlatformError "jni", 7, 1000, 42, [], [],
        .completed⟩ : AndroidEnv) none "p1" =
      .error (.PlatformError "Subscriptions not initialized") ∧
    restore_purchases_android
      (⟨true, .PlatformError "jni", 7, 1000, 42, [], [],
        .completed⟩ : AndroidEnv) none =
      .error (.PlatformError "Subscriptions not initialized") ∧
    get_subscription_status_android
      (⟨true, .PlatformError "jni", 7, 1000, 42, [], [],
        .completed⟩ : AndroidEnv) none "p2" =
      .error (.PlatformError "Subscriptions not initialized") :=
  android_uninitialized_platform_error _ rfl ["p1"] "p1" "p2"

end Subscriptions
